import Mathlib

/-!
Verification of the MyPodcaster briefing pipeline (src/app) against its
natural-language specification.

Shallow embedding conventions:
* Python `str` values that the claims measure character-by-character
  (article content in `read_url`) are embedded as `List Char`; all other
  strings are Lean `String`s built by concatenation (Python f-strings).
* Network / provider effects are parameters: each embedded operation takes
  the outcome of its provider call (`HttpOutcome`, `FetchOutcome`, ...) as
  an explicit argument, exactly as the repository's unit tests mock them.
* Caches (`cachetools.TTLCache`) are association lists; the TTL/maxsize
  eviction is time-based and not modelled — within one expiry window the
  cache behaves as a pure key/value map, which is what the claims discuss.
* Python exceptions become an inductive `PyExc`; `raise` becomes `Except.error`.
* Machine integers do not overflow in any of the modelled code paths
  (counters bounded by 15 articles), so `Nat` is used directly.
-/

namespace MyPodcaster

-- ──────────────────────────────────────────────
-- app/models.py
-- ──────────────────────────────────────────────

/-- `ErrorSeverity(StrEnum)` from app/models.py: RECOVERABLE, DEGRADED, FATAL
(declaration order matters: `summarize_errors` ranks by `list(ErrorSeverity).index`). -/
inductive ErrorSeverity where
  | recoverable
  | degraded
  | fatal
deriving DecidableEq, Repr

/-- `list(ErrorSeverity).index(sev)` — position in declaration order. -/
def sevIndex : ErrorSeverity → Nat
  | .recoverable => 0
  | .degraded => 1
  | .fatal => 2

/-- `sev.value` — the StrEnum string value. -/
def sevValue : ErrorSeverity → String
  | .recoverable => "recoverable"
  | .degraded => "degraded"
  | .fatal => "fatal"

/-- `BriefingError` from app/models.py. The `context : dict` and
`timestamp : datetime` fields are free-form diagnostics no claim measures;
they are omitted from the embedding. -/
structure BriefingError where
  code : String
  message : String
  severity : ErrorSeverity
  source : String
  recovered : Bool := false
  recovery_action : String := ""
deriving DecidableEq, Repr

/-- `ErrorDetail` from app/models.py. -/
structure ErrorDetail where
  component : String
  count : Nat
  sample : String
  severity : String
deriving DecidableEq, Repr

/-- `JobError` from app/models.py. -/
structure JobError where
  code : String
  message : String
  details : List ErrorDetail := []
deriving DecidableEq, Repr

/-- `ArticleSummary` from app/models.py. -/
structure ArticleSummary where
  title : String
  url : String
  hn_id : String
  points : Nat
  num_comments : Nat := 0
  summary_text : String
  audio_url : Option String := none
deriving DecidableEq, Repr

/-- `BriefingScript` from app/models.py (pydantic enforces 1 ≤ len ≤ 15;
the bound appears as a hypothesis where a claim needs it). -/
structure BriefingScript where
  articles : List ArticleSummary
deriving DecidableEq, Repr

/-- `JobPhase(StrEnum)` from app/models.py. -/
inductive JobPhase where
  | pending
  | agent
  | tts
  | done
deriving DecidableEq, Repr

/-- `JobStatus(StrEnum)` from app/models.py. -/
inductive JobStatus where
  | pending
  | processing
  | completed
  | failed
deriving DecidableEq, Repr

/-- `JobProgress` from app/models.py. -/
structure JobProgress where
  phase : JobPhase := .pending
  articles_found : Nat := 0
  articles_selected : Nat := 0
  articles_read : Nat := 0
  message : String := "Waiting to start..."
deriving DecidableEq, Repr

/-- `JobResult` from app/models.py; the Python `dict[int, str]` audio map is
an association list in dict insertion order. -/
structure JobResult where
  articles : List ArticleSummary
  audio_files : List (Nat × String) := []
deriving DecidableEq, Repr

/-- `Job` from app/models.py. `created_at` is wall-clock time (not modelled);
`completed_at` is kept as a Bool flag recording whether it was set. -/
structure Job where
  job_id : String
  interests : String := ""
  num_articles : Nat := 10
  status : JobStatus := .pending
  progress : JobProgress := {}
  result : Option JobResult := none
  error : Option JobError := none
  errors : List BriefingError := []
  completed_at : Bool := false
deriving DecidableEq, Repr

-- ──────────────────────────────────────────────
-- app/jobs.py : summarize_errors
-- ──────────────────────────────────────────────

/-- Key order of `defaultdict` grouping in `summarize_errors`: Python dict
keys appear in first-insertion order. -/
def pySources (errors : List BriefingError) : List String :=
  errors.foldl (fun acc e => if acc.contains e.source then acc else acc ++ [e.source]) []

/-- Python `max(best :: rest, key=f)`: scans left to right, replacing the
candidate only on a strictly larger key — ties keep the earlier element. -/
def pyMaxBy (f : BriefingError → Nat) (best : BriefingError) :
    List BriefingError → BriefingError
  | [] => best
  | e :: rest => pyMaxBy f (if f best < f e then e else best) rest

/-- `summarize_errors` from app/jobs.py lines 70-88: group by `source`
(insertion order), per group report count and the `max`-by-severity-index
incident's message and severity value. A group drawn from `pySources` is
never empty; the `[]` branch is unreachable. -/
def summarize_errors (errors : List BriefingError) : List ErrorDetail :=
  (pySources errors).map (fun s =>
    match errors.filter (fun e => e.source == s) with
    | [] => { component := s, count := 0, sample := "", severity := "" }
    | e :: rest =>
      let worst := pyMaxBy (fun e => sevIndex e.severity) e rest
      { component := s
        count := (e :: rest).length
        sample := worst.message
        severity := sevValue worst.severity })

/-- Spec-side selector for the amended claim C4: the first incident of the
group whose severity index is maximal (i.e. is ≥ every member's). -/
def specWorstFirstSeen (g : List BriefingError) : Option BriefingError :=
  g.find? (fun e => g.all (fun x => sevIndex x.severity ≤ sevIndex e.severity))

/-- Spec-side selector for claim C4 as frozen: the last incident of the
group whose severity index is maximal. -/
def specWorstLastSeen (g : List BriefingError) : Option BriefingError :=
  g.reverse.find? (fun e => g.all (fun x => sevIndex x.severity ≤ sevIndex e.severity))

/-- The per-component detail the amended claim C4 predicts. -/
def specDetail (errors : List BriefingError) (s : String) : ErrorDetail :=
  let g := errors.filter (fun e => e.source == s)
  match specWorstFirstSeen g with
  | some w => { component := s, count := g.length, sample := w.message,
                severity := sevValue w.severity }
  | none => { component := s, count := 0, sample := "", severity := "" }

-- ──────────────────────────────────────────────
-- app/tools.py : search_hn
-- ──────────────────────────────────────────────

/-- One Algolia hit as `search_hn` consumes it. The Python code reads each
field with `hit.get(key, default)` (and `or 0` for the numeric ones, mapping
absent/None to 0); the embedding carries the resulting effective values. -/
structure Hit where
  title : String := "Untitled"
  url : String := ""
  points : Nat := 0
  num_comments : Nat := 0
  objectID : String := ""
  created_at : String := ""
deriving DecidableEq, Repr

/-- The two Algolia endpoints `search_hn` chooses between. -/
inductive Endpoint where
  | search
  | searchByDate
deriving DecidableEq, Repr

/-- Python `str.strip()`: drop leading and trailing whitespace. -/
def pyStrip (l : List Char) : List Char :=
  ((l.dropWhile Char.isWhitespace).reverse.dropWhile Char.isWhitespace).reverse

/-- Python `str.strip()` on a Lean `String`. -/
def pyStripStr (s : String) : String :=
  String.mk (pyStrip s.toList)

/-- Endpoint selection, app/tools.py lines 72-86: a non-blank (stripped)
query uses `search` only for relevance sort and `search_by_date` otherwise;
a blank query uses `search` with a 24h filter (the filter is wall-clock and
not modelled — it only changes the provider request). -/
def chooseEndpoint (query sort : String) : Endpoint :=
  if pyStripStr query ≠ "" then
    (if sort == "relevance" then .search else .searchByDate)
  else .search

/-- Stable insertion of a hit into a points-descending list: existing
elements with ≥ points stay in front (Python list.sort is stable). -/
def insertByPoints (e : Hit) : List Hit → List Hit
  | [] => [e]
  | x :: xs => if e.points ≤ x.points then x :: insertByPoints e xs else e :: x :: xs

/-- `hits.sort(key=lambda h: h.get("points", 0) or 0, reverse=True)` —
stable descending sort, modelled as left-to-right stable insertion sort
(each later element is inserted after earlier elements of equal points,
matching Python sort stability). -/
def sortByPointsDesc (l : List Hit) : List Hit :=
  l.foldl (fun acc e => insertByPoints e acc) []

/-- Descending-popularity order of a hit list (the order claim C9 talks
about). -/
def PointsDesc (l : List Hit) : Prop :=
  l.Pairwise (fun a b => b.points ≤ a.points)

/-- The hit list `search_hn` formats, app/tools.py lines 112-118: re-sort by
points only when `sort == "points"`, then cap at `min(limit, max_results)`. -/
def processHits (sort : String) (limit maxResults : Nat) (hits : List Hit) : List Hit :=
  let hits := if sort == "points" then sortByPointsDesc hits else hits
  hits.take (min limit maxResults)

/-- One numbered line of the formatted listing, app/tools.py lines 126-130. -/
def formatHitLine (i : Nat) (h : Hit) : String :=
  toString (i + 1) ++ ". [" ++ toString h.points ++ " pts, " ++
    toString h.num_comments ++ " comments] " ++ h.title ++ "\n   URL: " ++ h.url ++
    "\n   HN ID: " ++ h.objectID ++ " | Date: " ++ String.mk (h.created_at.toList.take 10)

/-- `"\n\n".join(lines)` over the numbered lines. -/
def formatHitLines : Nat → List Hit → String
  | _, [] => ""
  | i, [h] => formatHitLine i h
  | i, h :: h2 :: rest => formatHitLine i h ++ "\n\n" ++ formatHitLines (i + 1) (h2 :: rest)

/-- The success result string of `search_hn` (note: the "Found N" count is
the pre-cap hit count), app/tools.py lines 116-132. -/
def formatSearchResult (sort : String) (limit maxResults : Nat) (hits : List Hit) : String :=
  "Found " ++ toString hits.length ++ " articles:\n\n" ++
    formatHitLines 0 (processHits sort limit maxResults hits)

/-- The `[NO RESULTS]` guidance string, app/tools.py lines 98-101. -/
def noResultsMsg (query : String) : String :=
  "[NO RESULTS] No HN articles found for query \x27" ++ query ++ "\x27. " ++
    "Try a broader search term, or call search_hn with no query to get top stories."

/-- The incident returned with zero hits, app/tools.py lines 102-110. -/
def noResultsError (query : String) : BriefingError :=
  { code := "hn_no_results"
    message := "No results for \x27" ++ query ++ "\x27"
    severity := .recoverable
    source := "tools.search_hn"
    recovered := true
    recovery_action := "Agent will retry with broader query or use top stories" }

/-- Outcome of the Algolia GET, abstracting `httpx`: a JSON body carrying a
hit list, a timeout, an HTTP error status, or any other exception. -/
inductive HttpOutcome where
  | ok (hits : List Hit)
  | timeout
  | httpStatus (status : Nat)
  | exc (name msg : String)
deriving DecidableEq, Repr

/-- `f"{query}|{sort}|{limit}"` — the search cache key. -/
def hnCacheKey (query sort : String) (limit : Nat) : String :=
  query ++ "|" ++ sort ++ "|" ++ toString limit

/-- The sentinel string of `search_hn`'s generic `except Exception` handler,
app/tools.py line 173. -/
def searchUnknownErrorMsg (msg : String) : String :=
  "[ERROR] Unexpected failure searching HN: " ++ msg

/-- The incident of `search_hn`'s generic `except Exception` handler,
app/tools.py lines 164-172. -/
def searchUnknownError (name msg : String) : BriefingError :=
  { code := "hn_unknown_error"
    message := "Unexpected error searching HN: " ++ name ++ ": " ++ msg
    severity := .recoverable
    source := "tools.search_hn"
    recovered := true
    recovery_action := "Agent should try a different approach" }

/-- `str(e)` of the AttributeError pydantic raises when tools.py line 69
reads `settings.max_search_results`: config.py's `Settings` class defines no
such field.  No theorem depends on this exact text. -/
def attributeErrorText : String :=
  "\x27Settings\x27 object has no attribute \x27max_search_results\x27"

/-- `search_hn` from app/tools.py lines 53-173. `cache` is `_hn_cache`;
`outcome` is the provider call result.  `max_search_results` is the result
of the attribute read `settings.max_search_results` at line 69 — the FIRST
statement inside the `try` block: `none` models the shipped configuration
(config.py's `Settings` has no such field, so the read raises
AttributeError, which the generic `except Exception` handler at lines
162-173 turns into the unknown-error sentinel before any request is made);
`some n` models a settings object that carries the field, as the
repository's tests create by patching `app.tools.settings`.  Returns
((result_string, optional_error), cache_after). -/
def search_hn (cache : List (String × String)) (query sort : String) (limit : Nat)
    (max_search_results : Option Nat) (outcome : HttpOutcome) :
    (String × Option BriefingError) × List (String × String) :=
  let key := hnCacheKey query sort limit
  match cache.lookup key with
  | some cached => ((cached, none), cache)
  | none =>
    match max_search_results with
    | none =>
      ((searchUnknownErrorMsg attributeErrorText,
        some (searchUnknownError "AttributeError" attributeErrorText)), cache)
    | some maxResults =>
      match outcome with
      | .ok hits =>
        if hits.isEmpty then
          ((noResultsMsg query, some (noResultsError query)), cache)
        else
          let result := formatSearchResult sort limit maxResults hits
          ((result, none), (key, result) :: cache)
      | .timeout =>
        (("[TIMEOUT] HN search timed out. Try again or use a different query.",
          some { code := "hn_timeout"
                 message := "Algolia HN search timed out after 10s"
                 severity := .recoverable
                 source := "tools.search_hn"
                 recovered := true
                 recovery_action := "Agent should retry or try a different query" }), cache)
      | .httpStatus status =>
        (("[ERROR] HN search failed with HTTP " ++ toString status ++ ". Try again.",
          some { code := "hn_http_error"
                 message := "Algolia returned HTTP " ++ toString status
                 severity := .recoverable
                 source := "tools.search_hn"
                 recovered := true
                 recovery_action := "Agent should retry" }), cache)
      | .exc name msg =>
        ((searchUnknownErrorMsg msg,
          some (searchUnknownError name msg)), cache)

-- ──────────────────────────────────────────────
-- app/tools.py : read_url
-- ──────────────────────────────────────────────

/-- Outcome of the Jina Reader GET. The body is `List Char` so truncation
lengths are measured in code points exactly as Python slices do. -/
inductive FetchOutcome where
  | ok (text : List Char)
  | timeout
  | httpStatus (status : Nat)
  | exc (name msg : String)
deriving DecidableEq, Repr

/-- The `[THIN CONTENT]` wrapper, app/tools.py lines 221-226. -/
def thinContentMsg (url : String) (content : List Char) : List Char :=
  ("[THIN CONTENT] Only " ++ toString content.length ++ " chars extracted from " ++
      url ++ ".\nContent: ").toList ++ content.take 500 ++
    "\nUse this plus the article title for a brief summary.".toList

/-- The thin-content incident, app/tools.py lines 211-220. -/
def thinContentError (url : String) (contentLength : Nat) : BriefingError :=
  { code := "jina_thin_content"
    message := "Article at " ++ url ++ " returned only " ++ toString contentLength ++ " chars"
    severity := .recoverable
    source := "tools.read_url"
    recovered := true
    recovery_action := "Agent will use available text plus title for brief mention" }

/-- The HTTP status → (code, message) table of `read_url`, lines 252-259. -/
def jinaCodeMap (status : Nat) : String × String :=
  if status = 403 then ("jina_forbidden", "Access denied (likely paywall or bot protection)")
  else if status = 429 then ("jina_rate_limited", "Rate limited by Jina API")
  else if status = 500 then ("jina_server_error", "Jina Reader internal error")
  else ("jina_http_error", "HTTP " ++ toString status)

/-- `read_url` from app/tools.py lines 183-291. `cache` is `_url_cache`,
`maxLen` is `settings.max_article_content_length`. Content strings are
`List Char`; fixed English sentinel messages are converted with `.toList`.
Returns ((content, optional_error), cache_after). -/
def read_url (cache : List (String × List Char)) (url : String) (maxLen : Nat)
    (outcome : FetchOutcome) :
    (List Char × Option BriefingError) × List (String × List Char) :=
  match cache.lookup url with
  | some cached => ((cached, none), cache)
  | none =>
    match outcome with
    | .ok text =>
      let content := pyStrip text
      if content.length < 100 then
        ((thinContentMsg url content, some (thinContentError url content.length)), cache)
      else
        let truncated := content.take maxLen
        ((truncated, none), (url, truncated) :: cache)
    | .timeout =>
      ((("[TIMEOUT] Could not read " ++ url ++ " within 15 seconds. " ++
          "Write a brief mention using the article title and HN metadata only.").toList,
        some { code := "jina_timeout"
               message := "Timed out reading " ++ url ++ " after 15s"
               severity := .recoverable
               source := "tools.read_url"
               recovered := true
               recovery_action := "Agent will write brief mention from title only" }), cache)
    | .httpStatus status =>
      let err_code := (jinaCodeMap status).1
      let err_msg := (jinaCodeMap status).2
      ((("[" ++ err_code.toUpper ++ "] Could not read " ++ url ++ ": " ++ err_msg ++ ". " ++
          "Write a brief mention using the article title and HN metadata only.").toList,
        some { code := err_code
               message := err_msg ++ " for " ++ url
               severity := .recoverable
               source := "tools.read_url"
               recovered := true
               recovery_action := "Agent will write brief mention from title only" }), cache)
    | .exc name msg =>
      ((("[ERROR] Unexpected failure reading " ++ url ++ ". " ++
          "Write a brief mention using the article title and HN metadata only.").toList,
        some { code := "jina_unknown_error"
               message := "Unexpected error reading " ++ url ++ ": " ++ name ++ ": " ++ msg
               severity := .recoverable
               source := "tools.read_url"
               recovered := true
               recovery_action := "Agent will write brief mention from title only" }), cache)

-- ──────────────────────────────────────────────
-- Python exceptions crossing module boundaries
-- ──────────────────────────────────────────────

/-- The exception classes that flow between agent.py, tts.py and jobs.py.
`agentTimeoutError` is `AgentTimeoutError(Exception)` (app/agent.py line 323)
— it is NOT a subclass of the builtin `TimeoutError` (`timeoutError` here),
which models both `asyncio.TimeoutError`/`TimeoutError`.  `otherExc` covers
every remaining exception, carrying the Python class name and message. -/
inductive PyExc where
  | agentTimeoutError (msg : String)
  | timeoutError (msg : String)
  | jsonDecodeError (msg : String)
  | ttsCompleteFailure (msg : String)
  | ttsMajorityFailure (msg : String)
  | otherExc (name msg : String)
deriving DecidableEq, Repr

/-- `type(e).__name__` of an embedded exception. -/
def pyExcName : PyExc → String
  | .agentTimeoutError _ => "AgentTimeoutError"
  | .timeoutError _ => "TimeoutError"
  | .jsonDecodeError _ => "JSONDecodeError"
  | .ttsCompleteFailure _ => "TTSCompleteFailureError"
  | .ttsMajorityFailure _ => "TTSMajorityFailureError"
  | .otherExc name _ => name

/-- `str(e)` of an embedded exception. -/
def pyExcMsg : PyExc → String
  | .agentTimeoutError m | .timeoutError m | .jsonDecodeError m
  | .ttsCompleteFailure m | .ttsMajorityFailure m | .otherExc _ m => m

-- ──────────────────────────────────────────────
-- app/tts.py : generate_all_audio
-- ──────────────────────────────────────────────

/-- The per-article outcome of `tts_one_segment` + `save_audio` (threads in
the pool): `some filepath` if synthesis and saving succeeded (possibly after
the one retry), `none` if the attempt ultimately raised. -/
abbrev TTSOutcome := Option String

/-- The `results` dict of `generate_all_audio`, keyed by article index.
`as_completed` yields futures in nondeterministic order, but the final dict
CONTENT is order-independent; the embedding inserts in index order. -/
def audioResults (start : Nat) : List TTSOutcome → List (Nat × String)
  | [] => []
  | some p :: rest => (start, p) :: audioResults (start + 1) rest
  | none :: rest => audioResults (start + 1) rest

/-- The `tts_failed` incident appended per failed article,
app/tts.py lines 122-139. -/
def ttsFailedError (idx : Nat) (title : String) : BriefingError :=
  { code := "tts_failed"
    message := "Audio generation failed for article " ++ toString idx ++ ": \x27" ++
      title.take 50 ++ "\x27"
    severity := .degraded
    source := "tts"
    recovered := true
    recovery_action := "Article displayed without audio, transcript still available" }

/-- The `errors` list accumulated by `generate_all_audio`, one entry per
failed article (order of `as_completed` is nondeterministic; index order is
one admissible order and no claim depends on it). -/
def ttsErrors (articles : List ArticleSummary) (outcomes : List TTSOutcome) :
    List BriefingError :=
  ((articles.zip outcomes).enum.filterMap (fun p =>
    match p.2.2 with
    | some _ => none
    | none => some (ttsFailedError p.1 p.2.1.title)))

/-- `generate_all_audio` from app/tts.py lines 93-153.  `outcomes` holds one
entry per article of `script`.  Python compares `succeeded / total < 0.5`
with exact small integers, which is equivalent to `2 * succeeded < total`.
Returns the mutated job and the index→filepath map, or raises one of the two
threshold errors (after the error list was already attached to the job). -/
def generate_all_audio (script : BriefingScript) (job : Job)
    (outcomes : List TTSOutcome) : Except PyExc (Job × List (Nat × String)) :=
  let job := { job with progress :=
    { job.progress with phase := .tts, message := "Generating audio..." } }
  let results := audioResults 0 outcomes
  let job := { job with errors := job.errors ++ ttsErrors script.articles outcomes }
  let total := script.articles.length
  let succeeded := results.length
  if succeeded = 0 then
    .error (.ttsCompleteFailure ("All " ++ toString total ++ " TTS calls failed"))
  else if 2 * succeeded < total then
    .error (.ttsMajorityFailure ("Only " ++ toString succeeded ++ "/" ++ toString total ++
      " articles generated audio"))
  else
    let doneMsg := "Generated audio for " ++ toString succeeded ++ "/" ++
      toString total ++ " articles"
    .ok ({ job with progress := { job.progress with message := doneMsg } }, results)

-- ──────────────────────────────────────────────
-- app/agent.py : agent loop and run_agent
-- ──────────────────────────────────────────────

/-- One model response inside `_agent_loop`.  `toolCalls` covers every
response that does not finalize (tool calls are executed and the loop
continues; a response with neither tool calls nor stop+content also just
falls through to the next turn).  `finalContent` is a stop response whose
content parses into a script (`some`) or fails to parse (`none`):
`BriefingScript.model_validate_json` is pydantic v2, which raises
ValidationError — NOT `json.JSONDecodeError` — on unparsable content, so
that raise lands in `run_agent`'s generic `except Exception` clause.
(The `json.JSONDecodeError` clause of `run_agent` would only fire for
malformed tool-call argument JSON at app/agent.py line 218, which this
control-flow model does not represent.)  No claim exercises this branch. -/
inductive TurnResponse where
  | toolCalls
  | finalContent (parsed : Option BriefingScript)
deriving DecidableEq, Repr

/-- The `for turn in range(max_turns)` loop of `_agent_loop`
(app/agent.py lines 182-260), keeping only control flow: `responses t` is
the model response on turn `t`; exhausting the range raises
`AgentTimeoutError` (line 260). -/
def agentLoopFrom (maxTurns : Nat) (responses : Nat → TurnResponse) :
    (turn remaining : Nat) → Except PyExc BriefingScript
  | _, 0 => .error (.agentTimeoutError
      ("Agent did not produce output within " ++ toString maxTurns ++ " turns"))
  | t, r + 1 =>
    match responses t with
    | .toolCalls => agentLoopFrom maxTurns responses (t + 1) r
    | .finalContent (some script) => .ok script
    | .finalContent none =>
      .error (.otherExc "ValidationError" "Agent output failed script validation")

/-- `_agent_loop` viewed as: run up to `maxTurns` turns from turn 0. -/
def agent_loop (maxTurns : Nat) (responses : Nat → TurnResponse) :
    Except PyExc BriefingScript :=
  agentLoopFrom maxTurns responses 0 maxTurns

/-- `run_agent` from app/agent.py lines 263-315: wraps the loop outcome,
attaching accumulated tool errors to the job, and on failure appends one
final FATAL incident whose code depends on WHICH except clause matches:
`except TimeoutError` (builtin only — `AgentTimeoutError` does not match
it), then `except json.JSONDecodeError`, then `except Exception` with the
generic `agent_error` code.  Timeout message interpolates the configured
wall-clock limit and articles read so far. -/
def run_agent (job : Job) (loopErrors : List BriefingError)
    (timeoutSeconds : Nat) (loopOutcome : Except PyExc BriefingScript) :
    Job × Except PyExc BriefingScript :=
  match loopOutcome with
  | .ok script => ({ job with errors := job.errors ++ loopErrors }, .ok script)
  | .error e =>
    match e with
    | .timeoutError m =>
      ({ job with errors := job.errors ++ loopErrors ++
          [{ code := "agent_timeout"
             message := "Agent did not finish within " ++ toString timeoutSeconds ++
               "s. Read " ++ toString job.progress.articles_read ++
               " articles before timeout."
             severity := .fatal
             source := "agent" }] }, .error (.timeoutError m))
    | .jsonDecodeError m =>
      ({ job with errors := job.errors ++ loopErrors ++
          [{ code := "agent_bad_output"
             message := ("Agent output was not valid JSON: " ++ m).take 200
             severity := .fatal
             source := "agent" }] }, .error (.jsonDecodeError m))
    | e =>
      ({ job with errors := job.errors ++ loopErrors ++
          [{ code := "agent_error"
             message := "Agent failed: " ++ pyExcName e ++ ": " ++ pyExcMsg e
             severity := .fatal
             source := "agent" }] }, .error e)

-- ──────────────────────────────────────────────
-- app/agent.py : execute_tool
-- ──────────────────────────────────────────────

/-- Non-overlapping occurrences of the substring ". [" —
Python `result.count(". [")`, used as the rough articles-found parse. -/
def countDotBracket : List Char → Nat
  | '.' :: ' ' :: '[' :: rest => 1 + countDotBracket rest
  | _ :: rest => countDotBracket rest
  | [] => 0

/-- The `arguments` dict of a tool call: `arguments.get("query", "")` etc. -/
structure ToolArguments where
  query : String := ""
  sort : String := "points"
  limit : Nat := 20
  url : String := ""
deriving DecidableEq, Repr

/-- `execute_tool` from app/agent.py lines 117-158.  The adapter coroutines
are parameters (`searchResult`, `readResult`), exactly as the repository's
unit tests patch them; each is the (string, optional incident) pair the
adapter returned.  Returns (result string, mutated job, mutated errors). -/
def execute_tool (tool_name : String) (arguments : ToolArguments) (job : Job)
    (errors : List BriefingError)
    (searchResult : String × Option BriefingError)
    (readResult : String × Option BriefingError) :
    String × Job × List BriefingError :=
  if tool_name == "search_hn" then
    let job := { job with progress := { job.progress with message :=
      if arguments.query ≠ "" then
        "Searching HN for \x27" ++ arguments.query ++ "\x27..."
      else "Fetching top stories..." } }
    match searchResult.2 with
    | some error => (searchResult.1, job, errors ++ [error])
    | none =>
      (searchResult.1,
       { job with progress := { job.progress with
          articles_found := countDotBracket searchResult.1.toList } },
       errors)
  else if tool_name == "read_url" then
    -- NOTE: the source increments articles_read BEFORE awaiting read_url,
    -- unconditionally (app/agent.py line 149), then appends the adapter's
    -- incident if any.
    let job := { job with progress := { job.progress with
      articles_read := job.progress.articles_read + 1 } }
    let readingMsg := "Reading article " ++ toString job.progress.articles_read ++ "..."
    let job := { job with progress := { job.progress with message := readingMsg } }
    match readResult.2 with
    | some error => (readResult.1, job, errors ++ [error])
    | none => (readResult.1, job, errors)
  else
    ("[ERROR] Unknown tool: " ++ tool_name, job, errors)

-- ──────────────────────────────────────────────
-- app/jobs.py : process_briefing
-- ──────────────────────────────────────────────

/-- `job.errors[-1].code if job.errors else "agent_error"`. -/
def lastErrorCode (j : Job) : String :=
  match j.errors.getLast? with
  | some e => e.code
  | none => "agent_error"

/-- The except-clause dispatch of `process_briefing`, app/jobs.py lines
131-157, in source order: `(AgentTimeoutError, TimeoutError)` →
agent-failure JobError with the last accumulated incident's code;
`(TTSCompleteFailureError, TTSMajorityFailureError)` → `tts_failure`;
anything else (including JSON decode errors) → `internal_error`. -/
def handleJobExc (j : Job) (e : PyExc) : Job :=
  match e with
  | .agentTimeoutError m | .timeoutError m =>
    { j with status := .failed
             error := some { code := lastErrorCode j, message := m,
                             details := summarize_errors j.errors } }
  | .ttsCompleteFailure m | .ttsMajorityFailure m =>
    { j with status := .failed
             error := some { code := "tts_failure", message := m,
                             details := summarize_errors j.errors } }
  | e =>
    { j with status := .failed
             error := some { code := "internal_error"
                             message := "Unexpected error: " ++ pyExcName e ++ ": " ++
                               pyExcMsg e
                             details := summarize_errors j.errors } }

/-- `article.audio_url = f"/api/briefings/{job_id}/audio/{i}"` for each index
present in the audio map, app/jobs.py lines 113-115. -/
def attachAudio (job_id : String) (articles : List ArticleSummary)
    (audio_files : List (Nat × String)) : List ArticleSummary :=
  articles.enum.map (fun p =>
    if (audio_files.lookup p.1).isSome then
      { p.2 with audio_url := some ("/api/briefings/" ++ job_id ++ "/audio/" ++
          toString p.1) }
    else p.2)

/-- `process_briefing` from app/jobs.py lines 96-157.  The two phases are
parameters: `agentOutcome` is what `run_agent` returned or raised and
`agentErrs` the incidents it appended to `job.errors` (it mutates only
`errors` and `progress`, never status/result/error — see `run_agent`);
likewise `ttsOutcome`/`ttsErrs` for `generate_all_audio`, which also sets
the progress phase to TTS before doing work.  Every exception from either
phase is dispatched by `handleJobExc`; the function is total, which is the
embedded form of "never lets an exception escape". -/
def process_briefing (job : Job)
    (agentOutcome : Except PyExc BriefingScript) (agentErrs : List BriefingError)
    (ttsOutcome : Except PyExc (List (Nat × String))) (ttsErrs : List BriefingError) :
    Job :=
  let p0 := { job.progress with phase := JobPhase.agent, message := "Starting agent..." }
  let j0 := { job with status := JobStatus.processing, progress := p0 }
  match agentOutcome with
  | .error e => handleJobExc { j0 with errors := j0.errors ++ agentErrs } e
  | .ok script =>
    let j1 := { j0 with errors := j0.errors ++ agentErrs }
    let p1 := { j1.progress with phase := JobPhase.tts, message := "Generating audio..." }
    let j2 := { j1 with progress := p1, errors := j1.errors ++ ttsErrs }
  match ttsOutcome with
    | .error e => handleJobExc j2 e
    | .ok audio_files =>
      { j2 with status := .completed
                progress := { j2.progress with phase := .done, message := "Done!" }
                result := some { articles := attachAudio job.job_id script.articles
                                   audio_files
                                 audio_files := audio_files }
                completed_at := true }

-- ──────────────────────────────────────────────
-- Concrete inputs used by witnesses and counterexamples
-- ──────────────────────────────────────────────

/-- A minimal article summary, mirroring the repository's test helper. -/
def sampleArticle (i : Nat) : ArticleSummary :=
  { title := "Test Article " ++ toString i
    url := "https://example.com/" ++ toString i
    hn_id := toString (100 + i)
    points := 100
    summary_text := "A test summary for audio generation." }

/-- A script with `n` articles. -/
def sampleScript (n : Nat) : BriefingScript :=
  { articles := (List.range n).map sampleArticle }

/-- A freshly created job (as `create_job` returns it). -/
def sampleJob : Job := { job_id := "abcdef123456" }

/-- Two successful synthesis outcomes for the C1 witness. -/
def c1outcomes : List TTSOutcome := [some "/tmp/a.mp3", some "/tmp/b.mp3"]

/-- A 150-character extracted body (above the 100-char thin threshold). -/
def c5raw : List Char := List.replicate 150 'a'

/-- A 42-character extracted body (below the 100-char thin threshold). -/
def c10raw : List Char := List.replicate 42 'b'

/-- Two same-source, same-severity incidents for the C4 tie-break. -/
def c4first : BriefingError :=
  { code := "tts_failed", message := "first", severity := .fatal, source := "tts" }

/-- See `c4first`. -/
def c4second : BriefingError :=
  { code := "tts_failed", message := "second", severity := .fatal, source := "tts" }

/-- A low-popularity hit listed before a high-popularity one (C9). -/
def hitLow : Hit :=
  { title := "low", url := "https://example.com/low", points := 1,
    num_comments := 1, objectID := "1", created_at := "2026-02-19T00:00:00Z" }

/-- See `hitLow`. -/
def hitHigh : Hit :=
  { title := "high", url := "https://example.com/high", points := 100,
    num_comments := 10, objectID := "2", created_at := "2026-02-19T00:00:00Z" }

/-- The adapter failure the repository's own test feeds `execute_tool` (C7). -/
def c7ReadError : BriefingError :=
  { code := "jina_timeout", message := "Timed out", severity := .recoverable,
    source := "tools.read_url", recovered := true }

-- ──────────────────────────────────────────────
-- Helper lemmas : summarize_errors (C4)
-- ──────────────────────────────────────────────

theorem find?_eq_of_agree {α : Type} (p q : α → Bool) (l : List α)
    (hagree : ∀ x ∈ l, p x = q x) : l.find? p = l.find? q := by
  induction l with
  | nil => rfl
  | cons a t ih =>
    rw [List.find?_cons, List.find?_cons, hagree a (List.mem_cons_self a t),
      ih (fun x hx => hagree x (List.mem_cons_of_mem a hx))]

theorem pyMaxBy_eq_firstMax (f : BriefingError → Nat) :
    ∀ (l : List BriefingError) (a : BriefingError),
      (a :: l).find? (fun e => (a :: l).all (fun x => f x ≤ f e)) =
        some (pyMaxBy f a l)
  | [], a => by simp [pyMaxBy]
  | e :: rest, a => by
    rw [pyMaxBy]
    by_cases hae : f a < f e
    · rw [if_pos hae]
      have hPa : ((a :: e :: rest).all (fun x => decide (f x ≤ f a))) = false := by
        simp only [List.all_cons, Bool.and_eq_false_iff, decide_eq_false_iff_not]
        exact Or.inr (Or.inl (Nat.not_le_of_lt hae))
      rw [List.find?_cons_of_neg _ (by simpa using hPa)]
      have hcongr : ∀ x ∈ e :: rest,
          ((a :: e :: rest).all (fun y => decide (f y ≤ f x))) =
            ((e :: rest).all (fun y => decide (f y ≤ f x))) := by
        intro x _
        simp only [List.all_cons, Bool.and_assoc]
        by_cases hex : f e ≤ f x
        · have hax : f a ≤ f x := Nat.le_trans (Nat.le_of_lt hae) hex
          simp [hax]
        · simp [hex]
      rw [find?_eq_of_agree _ _ _ hcongr]
      exact pyMaxBy_eq_firstMax f rest e
    · rw [if_neg hae]
      have hea : f e ≤ f a := Nat.le_of_not_lt hae
      have hcongr : ∀ (x : BriefingError),
          ((a :: e :: rest).all (fun y => decide (f y ≤ f x))) =
            ((a :: rest).all (fun y => decide (f y ≤ f x))) := by
        intro x
        simp only [List.all_cons, Bool.and_assoc]
        by_cases hax : f a ≤ f x
        · have hex : f e ≤ f x := Nat.le_trans hea hax
          simp [hax, hex]
        · simp [hax]
      have IH := pyMaxBy_eq_firstMax f rest a
      by_cases hPa : ((a :: rest).all (fun y => decide (f y ≤ f a))) = true
      · rw [List.find?_cons_of_pos _ (by simpa using (hcongr a).trans hPa)]
        rw [List.find?_cons_of_pos _ (by simpa using hPa)] at IH
        exact IH.symm ▸ rfl
      · have hPa' : ((a :: rest).all (fun y => decide (f y ≤ f a))) = false :=
          Bool.eq_false_iff.mpr hPa
        rw [List.find?_cons_of_neg _ (by simp only [hcongr a]; simpa using hPa)]
        have hPe : ((a :: e :: rest).all (fun y => decide (f y ≤ f e))) = false := by
          rw [hcongr e]
          simp only [List.all_cons, Bool.and_eq_false_iff, decide_eq_false_iff_not]
          by_cases haee : f a ≤ f e
          · have : f e = f a := Nat.le_antisymm hea haee
            have := hPa'
            simp only [List.all_cons, Bool.and_eq_false_iff,
              decide_eq_false_iff_not] at this
            rcases this with h1 | h2
            · exact absurd (Nat.le_refl (f a)) h1
            · right
              rcases List.all_eq_false.mp h2 with ⟨x, hx, hfx⟩
              refine List.all_eq_false.mpr ⟨x, hx, ?_⟩
              simpa [this] using hfx
          · exact Or.inl haee
        rw [List.find?_cons_of_neg _ (by simpa using hPe)]
        rw [List.find?_cons_of_neg _ (by simpa using hPa)] at IH
        rw [← IH]
        exact find?_eq_of_agree _ _ rest (fun x _ => hcongr x)

theorem mem_pySources_aux (x : String) :
    ∀ (errs : List BriefingError) (acc : List String),
      x ∈ errs.foldl
        (fun acc e => if acc.contains e.source then acc else acc ++ [e.source]) acc ↔
      x ∈ acc ∨ ∃ e ∈ errs, e.source = x
  | [], acc => by simp
  | e :: rest, acc => by
    rw [List.foldl_cons]
    by_cases h : acc.contains e.source
    · rw [if_pos h, mem_pySources_aux x rest acc]
      constructor
      · rintro (hx | hx)
        · exact Or.inl hx
        · exact Or.inr (by rcases hx with ⟨e', he', hs⟩; exact ⟨e', List.mem_cons_of_mem e he', hs⟩)
      · rintro (hx | ⟨e', he', hs⟩)
        · exact Or.inl hx
        · rcases List.mem_cons.mp he' with rfl | he''
          · exact Or.inl (hs ▸ (List.mem_of_elem_eq_true h))
          · exact Or.inr ⟨e', he'', hs⟩
    · rw [if_neg h, mem_pySources_aux x rest (acc ++ [e.source])]
      constructor
      · rintro (hx | hx)
        · rcases List.mem_append.mp hx with hx' | hx'
          · exact Or.inl hx'
          · exact Or.inr ⟨e, List.mem_cons_self e rest, (List.mem_singleton.mp hx').symm⟩
        · exact Or.inr (by rcases hx with ⟨e', he', hs⟩; exact ⟨e', List.mem_cons_of_mem e he', hs⟩)
      · rintro (hx | ⟨e', he', hs⟩)
        · exact Or.inl (List.mem_append.mpr (Or.inl hx))
        · rcases List.mem_cons.mp he' with rfl | he''
          · exact Or.inl (List.mem_append.mpr (Or.inr (List.mem_singleton.mpr hs.symm)))
          · exact Or.inr ⟨e', he'', hs⟩

theorem mem_pySources {x : String} {errs : List BriefingError} :
    x ∈ pySources errs ↔ ∃ e ∈ errs, e.source = x := by
  rw [pySources, mem_pySources_aux]
  simp

theorem filter_source_ne_nil {s : String} {errs : List BriefingError}
    (h : s ∈ pySources errs) :
    errs.filter (fun e => e.source == s) ≠ [] := by
  rcases mem_pySources.mp h with ⟨e, he, hs⟩
  intro hnil
  have : e ∈ errs.filter (fun e => e.source == s) :=
    List.mem_filter.mpr ⟨he, by simp [hs]⟩
  simp [hnil] at this

theorem specWorstFirstSeen_cons (e : BriefingError) (rest : List BriefingError) :
    specWorstFirstSeen (e :: rest) =
      some (pyMaxBy (fun x => sevIndex x.severity) e rest) := by
  have h := pyMaxBy_eq_firstMax (fun x => sevIndex x.severity) rest e
  simpa [specWorstFirstSeen] using h

-- ──────────────────────────────────────────────
-- Claim C4
-- ──────────────────────────────────────────────

/-- Claim C4, counterexample: on two incidents of component "tts" that both
have the maximal severity (fatal), `summarize_errors` selects the FIRST-seen
incident's message ("first"), not the last-seen one ("second") that the
claim's tie-break rule predicts (`specWorstLastSeen`). -/
theorem C4_counterexample :
    (summarize_errors [c4first, c4second]).map (fun d => d.sample) = ["first"] ∧
    (specWorstLastSeen ([c4first, c4second].filter (fun e => e.source == "tts"))).map
      (fun e => e.message) = some "second" := by
  decide

/-- Claim C4 as amended: for every incident list, `summarize_errors` groups
incidents by originating component (in first-insertion order) and, per
component, reports the group size and the sample message and severity of the
incident whose severity is maximal under recoverable < degraded < fatal,
resolving ties to the FIRST-seen such incident in iteration order
(`specDetail` / `specWorstFirstSeen`), deterministically. -/
theorem C4_summarize_errors_first_seen_max (errs : List BriefingError) :
    summarize_errors errs = (pySources errs).map (specDetail errs) := by
  rw [summarize_errors]
  refine List.map_congr_left ?_
  intro s hs
  have hne := filter_source_ne_nil hs
  cases h : errs.filter (fun e => e.source == s) with
  | nil => exact absurd h hne
  | cons e rest =>
    simp only [specDetail, h, specWorstFirstSeen_cons]

-- ──────────────────────────────────────────────
-- Claims C2 and C3
-- ──────────────────────────────────────────────

/-- Claim C2: for every job and every outcome of its two phases (agent
success or any raised exception, speech fan-out success or any raised
exception), `process_briefing` never lets an exception escape — it is a
total function into `Job` — and the returned job's status is terminal:
Completed exactly on full success of both phases, Failed on any fatal
error from either phase. -/
theorem C2_process_briefing_terminal (job : Job)
    (agentOutcome : Except PyExc BriefingScript) (agentErrs : List BriefingError)
    (ttsOutcome : Except PyExc (List (Nat × String))) (ttsErrs : List BriefingError) :
    ((process_briefing job agentOutcome agentErrs ttsOutcome ttsErrs).status =
        .completed ∨
      (process_briefing job agentOutcome agentErrs ttsOutcome ttsErrs).status =
        .failed) ∧
    ((process_briefing job agentOutcome agentErrs ttsOutcome ttsErrs).status =
        .completed ↔
      (∃ s, agentOutcome = .ok s) ∧ (∃ r, ttsOutcome = .ok r)) := by
  cases agentOutcome with
  | error e => cases e <;> simp [process_briefing, handleJobExc]
  | ok s =>
    cases ttsOutcome with
    | error e => cases e <;> simp [process_briefing, handleJobExc]
    | ok r => simp [process_briefing]

/-- Claim C3: for every job that enters `process_briefing` with unset
`result` and `error` fields (as `create_job` produces it), after the call
`result` is non-None iff the status is Completed and `error` is non-None
iff the status is Failed. -/
theorem C3_result_error_iff_status (job : Job)
    (agentOutcome : Except PyExc BriefingScript) (agentErrs : List BriefingError)
    (ttsOutcome : Except PyExc (List (Nat × String))) (ttsErrs : List BriefingError)
    (hr : job.result = none) (he : job.error = none) :
    ((process_briefing job agentOutcome agentErrs ttsOutcome ttsErrs).result ≠ none ↔
      (process_briefing job agentOutcome agentErrs ttsOutcome ttsErrs).status =
        .completed) ∧
    ((process_briefing job agentOutcome agentErrs ttsOutcome ttsErrs).error ≠ none ↔
      (process_briefing job agentOutcome agentErrs ttsOutcome ttsErrs).status =
        .failed) := by
  cases agentOutcome with
  | error e => cases e <;> simp [process_briefing, handleJobExc, hr, he]
  | ok s =>
    cases ttsOutcome with
    | error e => cases e <;> simp [process_briefing, handleJobExc, hr, he]
    | ok r => simp [process_briefing, hr, he]

/-- Witness for C3 at a concrete fresh job and fully successful phases. -/
theorem C3_witness :
    ((process_briefing sampleJob (.ok (sampleScript 1)) []
        (.ok [(0, "/tmp/briefings/0.mp3")]) []).result ≠ none ↔
      (process_briefing sampleJob (.ok (sampleScript 1)) []
        (.ok [(0, "/tmp/briefings/0.mp3")]) []).status = .completed) ∧
    ((process_briefing sampleJob (.ok (sampleScript 1)) []
        (.ok [(0, "/tmp/briefings/0.mp3")]) []).error ≠ none ↔
      (process_briefing sampleJob (.ok (sampleScript 1)) []
        (.ok [(0, "/tmp/briefings/0.mp3")]) []).status = .failed) :=
  C3_result_error_iff_status sampleJob (.ok (sampleScript 1)) []
    (.ok [(0, "/tmp/briefings/0.mp3")]) [] rfl rfl

-- ──────────────────────────────────────────────
-- Claim C1
-- ──────────────────────────────────────────────

theorem audioResults_length : ∀ (l : List TTSOutcome) (s : Nat),
    (audioResults s l).length = (l.filter Option.isSome).length
  | [], _ => rfl
  | some p :: rest, s => by
    simp [audioResults, List.filter, audioResults_length rest (s + 1)]
  | none :: rest, s => by
    simp [audioResults, List.filter, audioResults_length rest (s + 1)]

theorem audioResults_lookup_lt : ∀ (l : List TTSOutcome) (s k : Nat), k < s →
    (audioResults s l).lookup k = none
  | [], _, _, _ => rfl
  | some p :: rest, s, k, h => by
    have hne : (k == s) = false := by simpa using Nat.ne_of_lt h
    simp only [audioResults, List.lookup, hne]
    exact audioResults_lookup_lt rest (s + 1) k (Nat.lt_succ_of_lt h)
  | none :: rest, s, k, h =>
    audioResults_lookup_lt rest (s + 1) k (Nat.lt_succ_of_lt h)

theorem audioResults_lookup : ∀ (l : List TTSOutcome) (s i : Nat),
    (audioResults s l).lookup (s + i) = l.getD i none
  | [], _, _ => rfl
  | some p :: rest, s, 0 => by
    simp [audioResults, List.lookup]
  | some p :: rest, s, i + 1 => by
    have hne : (s + (i + 1) == s) = false := by
      refine beq_eq_false_iff_ne.mpr ?_
      omega
    simp only [audioResults, List.lookup, hne]
    have h := audioResults_lookup rest (s + 1) i
    rw [show s + (i + 1) = (s + 1) + i by omega] at *
    simpa using h
  | none :: rest, s, 0 => by
    simpa [audioResults] using audioResults_lookup_lt rest (s + 1) s (Nat.lt_succ_self s)
  | none :: rest, s, i + 1 => by
    have h := audioResults_lookup rest (s + 1) i
    rw [show s + (i + 1) = (s + 1) + i by omega]
    simpa using h

/-- Claim C1: for the speech fan-out over a script of N ≥ 1 items, with one
synthesis outcome per item: zero successes make `generate_all_audio` raise
the complete-failure error; a success count in [1, ceil(N/2)-1] makes it
raise the majority-failure error; a success count ≥ ceil(N/2) makes it
return normally with the partial index→filepath mapping whose missing keys
are exactly the failed items (lookup i agrees with outcome i everywhere).
ceil(N/2) is (N+1)/2 in natural division; Python's `succeeded/total < 0.5`
comparison is `2*succeeded < total`. -/
theorem C1_generate_all_audio_thresholds (script : BriefingScript) (job : Job)
    (outcomes : List TTSOutcome)
    (_hlen : outcomes.length = script.articles.length)
    (hN : 1 ≤ script.articles.length) :
    ((outcomes.filter Option.isSome).length = 0 →
      generate_all_audio script job outcomes = .error (.ttsCompleteFailure
        ("All " ++ toString script.articles.length ++ " TTS calls failed"))) ∧
    (1 ≤ (outcomes.filter Option.isSome).length →
      (outcomes.filter Option.isSome).length ≤ (script.articles.length + 1) / 2 - 1 →
      ∃ m, generate_all_audio script job outcomes = .error (.ttsMajorityFailure m)) ∧
    ((script.articles.length + 1) / 2 ≤ (outcomes.filter Option.isSome).length →
      ∃ j results, generate_all_audio script job outcomes = .ok (j, results) ∧
        ∀ i, results.lookup i = outcomes.getD i none) := by
  have hs := audioResults_length outcomes 0
  refine ⟨?_, ?_, ?_⟩
  · intro h0
    simp only [generate_all_audio, hs]
    rw [if_pos h0]
  · intro h1 h2
    have hne : ¬ (outcomes.filter Option.isSome).length = 0 := by omega
    have hmaj : 2 * (outcomes.filter Option.isSome).length < script.articles.length := by
      omega
    simp only [generate_all_audio, hs]
    rw [if_neg hne, if_pos hmaj]
    exact ⟨_, rfl⟩
  · intro h3
    have hne : ¬ (outcomes.filter Option.isSome).length = 0 := by omega
    have hnmaj : ¬ 2 * (outcomes.filter Option.isSome).length <
        script.articles.length := by omega
    simp only [generate_all_audio, hs]
    rw [if_neg hne, if_neg hnmaj]
    refine ⟨_, _, rfl, fun i => ?_⟩
    simpa using audioResults_lookup outcomes 0 i

/-- Witness for C1 at a 2-article script with both syntheses succeeding. -/
theorem C1_witness :
    ((c1outcomes.filter Option.isSome).length = 0 →
      generate_all_audio (sampleScript 2) sampleJob c1outcomes =
        .error (.ttsCompleteFailure
          ("All " ++ toString (sampleScript 2).articles.length ++
            " TTS calls failed"))) ∧
    (1 ≤ (c1outcomes.filter Option.isSome).length →
      (c1outcomes.filter Option.isSome).length ≤
        ((sampleScript 2).articles.length + 1) / 2 - 1 →
      ∃ m, generate_all_audio (sampleScript 2) sampleJob c1outcomes =
        .error (.ttsMajorityFailure m)) ∧
    (((sampleScript 2).articles.length + 1) / 2 ≤
        (c1outcomes.filter Option.isSome).length →
      ∃ j results, generate_all_audio (sampleScript 2) sampleJob c1outcomes =
          .ok (j, results) ∧
        ∀ i, results.lookup i = c1outcomes.getD i none) :=
  C1_generate_all_audio_thresholds (sampleScript 2) sampleJob c1outcomes
    (by decide) (by decide)

-- ──────────────────────────────────────────────
-- Claims C5, C6, C10
-- ──────────────────────────────────────────────

/-- Claim C5: on a successful content-fetch (cache miss, HTTP success, and
extracted content at or above the 100-char thin threshold — the only path
that returns no incident), content of length L is returned as-is when
L ≤ budget and cut to exactly the budget when L exceeds it. -/
theorem C5_read_url_truncation (cache : List (String × List Char)) (url : String)
    (maxLen : Nat) (raw : List Char)
    (hmiss : cache.lookup url = none)
    (hthick : 100 ≤ (pyStrip raw).length) :
    ((read_url cache url maxLen (.ok raw)).1.2 = none) ∧
    (maxLen < (pyStrip raw).length →
      ((read_url cache url maxLen (.ok raw)).1.1).length = maxLen) ∧
    ((pyStrip raw).length ≤ maxLen →
      (read_url cache url maxLen (.ok raw)).1.1 = pyStrip raw) := by
  have hnotthin : ¬ (pyStrip raw).length < 100 := Nat.not_lt.mpr hthick
  simp only [read_url, hmiss]
  rw [if_neg hnotthin]
  refine ⟨rfl, fun hgt => ?_, fun hle => ?_⟩
  · simp only [List.length_take]
    omega
  · simpa using List.take_of_length_le hle

set_option maxRecDepth 4000 in
/-- Witness for C5 at a concrete 150-char body and a 2000-char budget. -/
theorem C5_witness :
    ((read_url [] "https://example.com" 2000 (.ok c5raw)).1.2 = none) ∧
    (2000 < (pyStrip c5raw).length →
      ((read_url [] "https://example.com" 2000 (.ok c5raw)).1.1).length = 2000) ∧
    ((pyStrip c5raw).length ≤ 2000 →
      (read_url [] "https://example.com" 2000 (.ok c5raw)).1.1 = pyStrip c5raw) :=
  C5_read_url_truncation [] "https://example.com" 2000 c5raw rfl (by decide)

/-- Claim C6, code evidence: config.py's `Settings` class defines no
`max_search_results` field, so `max_results = settings.max_search_results`
(app/tools.py line 69 — the first statement in the `try` block) raises
AttributeError on every cache miss, and the generic `except Exception`
handler returns the unknown-error sentinel with code "hn_unknown_error",
whatever the provider would have answered — including zero hits, whose
"hn_no_results" branch is therefore unreachable as shipped.  The claim is
the code's own intent: the repository's test `test_search_hn_no_results`
asserts exactly the claimed guidance-plus-recoverable-incident behaviour,
and the final conjuncts show the branch does behave as claimed once the
attribute exists, as that test's configuration (patched settings) has it. -/
theorem C6_missing_attribute_not_no_results :
    (∀ outcome, search_hn [] "rust" "points" 20 none outcome =
      ((searchUnknownErrorMsg attributeErrorText,
        some (searchUnknownError "AttributeError" attributeErrorText)), [])) ∧
    (searchUnknownError "AttributeError" attributeErrorText).code =
      "hn_unknown_error" ∧
    (search_hn [] "rust" "points" 20 (some 15) (.ok [])).1 =
      (noResultsMsg "rust", some (noResultsError "rust")) ∧
    (noResultsError "rust").code = "hn_no_results" ∧
    (noResultsError "rust").severity = .recoverable ∧
    (noResultsError "rust").recovered = true :=
  ⟨fun _ => rfl, rfl, rfl, rfl, rfl, rfl⟩

/-- Claim C10: the content-fetch cache is populated only on the fully
successful path. A body under the 100-char thin threshold is never written
to the cache, so an identical repeat call fetches afresh and produces a new
thin-content incident; a body at or above the threshold is cached
(truncated) and a later call for the same URL returns it with no incident,
whatever the network would have done. -/
theorem C10_read_url_cache_population (cache : List (String × List Char))
    (url : String) (maxLen : Nat) (raw : List Char)
    (hmiss : cache.lookup url = none) :
    ((pyStrip raw).length < 100 →
      (read_url cache url maxLen (.ok raw)).2 = cache ∧
      ((read_url cache url maxLen (.ok raw)).1.2).map (fun e => e.code) =
        some "jina_thin_content" ∧
      ((read_url ((read_url cache url maxLen (.ok raw)).2) url maxLen
          (.ok raw)).1.2).map (fun e => e.code) = some "jina_thin_content") ∧
    (100 ≤ (pyStrip raw).length →
      (read_url cache url maxLen (.ok raw)).2 =
        (url, (pyStrip raw).take maxLen) :: cache ∧
      ∀ outcome2, read_url ((read_url cache url maxLen (.ok raw)).2) url maxLen
          outcome2 = (((pyStrip raw).take maxLen, none),
            (url, (pyStrip raw).take maxLen) :: cache)) := by
  constructor
  · intro hthin
    have h1 : read_url cache url maxLen (.ok raw) =
        ((thinContentMsg url (pyStrip raw),
          some (thinContentError url (pyStrip raw).length)), cache) := by
      simp only [read_url, hmiss]
      rw [if_pos hthin]
    rw [h1]
    refine ⟨rfl, ?_, ?_⟩
    · simp [thinContentError]
    · rw [h1]
      simp [thinContentError]
  · intro hthick
    have hnotthin : ¬ (pyStrip raw).length < 100 := Nat.not_lt.mpr hthick
    have h1 : read_url cache url maxLen (.ok raw) =
        (((pyStrip raw).take maxLen, none), (url, (pyStrip raw).take maxLen) :: cache) := by
      simp only [read_url, hmiss]
      rw [if_neg hnotthin]
    rw [h1]
    refine ⟨rfl, fun outcome2 => ?_⟩
    simp [read_url, List.lookup]

/-- Witness for C10 at a concrete URL with a 42-char (thin) body. -/
theorem C10_witness :
    ((pyStrip c10raw).length < 100 →
      (read_url [] "https://example.com/thin" 2000 (.ok c10raw)).2 = [] ∧
      ((read_url [] "https://example.com/thin" 2000 (.ok c10raw)).1.2).map
        (fun e => e.code) = some "jina_thin_content" ∧
      ((read_url ((read_url [] "https://example.com/thin" 2000 (.ok c10raw)).2)
          "https://example.com/thin" 2000 (.ok c10raw)).1.2).map (fun e => e.code) =
        some "jina_thin_content") ∧
    (100 ≤ (pyStrip c10raw).length →
      (read_url [] "https://example.com/thin" 2000 (.ok c10raw)).2 =
        ("https://example.com/thin", (pyStrip c10raw).take 2000) :: [] ∧
      ∀ outcome2, read_url
          ((read_url [] "https://example.com/thin" 2000 (.ok c10raw)).2)
          "https://example.com/thin" 2000 outcome2 =
        (((pyStrip c10raw).take 2000, none),
          ("https://example.com/thin", (pyStrip c10raw).take 2000) :: [])) :=
  C10_read_url_cache_population [] "https://example.com/thin" 2000 c10raw rfl

-- ──────────────────────────────────────────────
-- Claim C9
-- ──────────────────────────────────────────────

theorem mem_insertByPoints {a e : Hit} : ∀ {l : List Hit},
    a ∈ insertByPoints e l ↔ a = e ∨ a ∈ l
  | [] => by simp [insertByPoints]
  | x :: xs => by
    rw [insertByPoints]
    by_cases hc : e.points ≤ x.points
    · rw [if_pos hc]
      simp only [List.mem_cons, mem_insertByPoints (l := xs)]
      tauto
    · rw [if_neg hc]
      simp only [List.mem_cons]

theorem pointsDesc_insertByPoints {e : Hit} : ∀ {l : List Hit},
    PointsDesc l → PointsDesc (insertByPoints e l)
  | [], _ => List.pairwise_singleton _ _
  | x :: xs, h => by
    rcases List.pairwise_cons.mp h with ⟨hx, hxs⟩
    rw [insertByPoints]
    by_cases hc : e.points ≤ x.points
    · rw [if_pos hc]
      refine List.pairwise_cons.mpr ⟨?_, pointsDesc_insertByPoints hxs⟩
      intro b hb
      rcases mem_insertByPoints.mp hb with rfl | hb'
      · exact hc
      · exact hx b hb'
    · rw [if_neg hc]
      refine List.pairwise_cons.mpr ⟨?_, h⟩
      intro b hb
      rcases List.mem_cons.mp hb with rfl | hb'
      · exact Nat.le_of_lt (Nat.lt_of_not_le hc)
      · exact Nat.le_trans (hx b hb') (Nat.le_of_lt (Nat.lt_of_not_le hc))

theorem pointsDesc_foldl : ∀ (l acc : List Hit), PointsDesc acc →
    PointsDesc (l.foldl (fun acc e => insertByPoints e acc) acc)
  | [], _, h => h
  | _ :: xs, _, h => pointsDesc_foldl xs _ (pointsDesc_insertByPoints h)

theorem pointsDesc_sortByPointsDesc (l : List Hit) :
    PointsDesc (sortByPointsDesc l) :=
  pointsDesc_foldl l [] List.Pairwise.nil

set_option maxRecDepth 8000 in
/-- Claim C9, counterexample, at query="ai", sort="date", provider hits
[1-point, 100-point]: as shipped (no `max_search_results` on the settings
object, see config.py) `search_hn` returns the unknown-error sentinel
without consulting the provider, so no recency fetch, re-ranking or
formatting happens at all; and even in the configuration the repository's
tests create by patching settings, the fetched hits are NOT re-ranked by
popularity — the 1-point hit stays first in the processed hit list and in
the formatted listing, because the client-side re-sort (tools.py line 113)
is guarded by sort == "points". -/
theorem C9_counterexample :
    ((search_hn [] "ai" "date" 20 none (.ok [hitLow, hitHigh])).1.2).map
      (fun e => e.code) = some "hn_unknown_error" ∧
    chooseEndpoint "ai" "date" = .searchByDate ∧
    processHits "date" 20 15 [hitLow, hitHigh] = [hitLow, hitHigh] ∧
    hitLow.points < hitHigh.points ∧
    ¬ PointsDesc (processHits "date" 20 15 [hitLow, hitHigh]) ∧
    (search_hn [] "ai" "date" 20 (some 15) (.ok [hitLow, hitHigh])).1.1 =
      "Found 2 articles:\n\n" ++
        "1. [1 pts, 1 comments] low\n   URL: https://example.com/low\n" ++
        "   HN ID: 1 | Date: 2026-02-19\n\n" ++
        "2. [100 pts, 10 comments] high\n   URL: https://example.com/high\n" ++
        "   HN ID: 2 | Date: 2026-02-19" := by
  refine ⟨rfl, rfl, rfl, by decide, ?_, by decide⟩
  intro h
  rw [show processHits "date" 20 15 [hitLow, hitHigh] = [hitLow, hitHigh] from rfl] at h
  rcases List.pairwise_cons.mp h with ⟨hrel, _⟩
  have hle := hrel hitHigh (List.mem_cons_self hitHigh [])
  revert hle
  decide

/-- Claim C9 as amended: for every search with a non-empty (stripped) query
and a non-relevance sort mode ("date" or "points"), on a cache miss: as
shipped — the settings object lacking `max_search_results` — `search_hn`
performs no fetch and returns the unknown-error sentinel plus one
recoverable "hn_unknown_error" incident, whatever the provider outcome
would have been; in a configuration where the attribute exists (as the
repository's tests patch it), the fetch goes via the recency endpoint
(`search_by_date`), and the client-side popularity re-rank happens only for
sort="points" (the processed listing is then in descending-points order);
for sort="date" the provider's recency order is kept, merely capped. -/
theorem C9_shipped_and_patched (cache : List (String × String))
    (query sort : String) (limit maxResults : Nat) (hits : List Hit)
    (hq : pyStripStr query ≠ "") (hs : sort = "date" ∨ sort = "points")
    (hmiss : cache.lookup (hnCacheKey query sort limit) = none) :
    (∀ outcome, search_hn cache query sort limit none outcome =
      ((searchUnknownErrorMsg attributeErrorText,
        some (searchUnknownError "AttributeError" attributeErrorText)), cache)) ∧
    chooseEndpoint query sort = .searchByDate ∧
    (sort = "points" → PointsDesc (processHits sort limit maxResults hits)) ∧
    (sort = "date" → processHits sort limit maxResults hits =
      hits.take (min limit maxResults)) := by
  refine ⟨fun outcome => ?_, ?_, fun hp => ?_, fun hd => ?_⟩
  · simp [search_hn, hmiss]
  · rw [chooseEndpoint, if_pos hq]
    rcases hs with rfl | rfl <;> rfl
  · subst hp
    simp only [processHits]
    have hcond : (("points" == "points") = true) := rfl
    rw [if_pos hcond]
    exact List.Pairwise.sublist (List.take_sublist _ _)
      (pointsDesc_sortByPointsDesc hits)
  · subst hd
    rfl

/-- Witness for the amended C9 at a concrete query with sort="points". -/
theorem C9_witness :
    (∀ outcome, search_hn [] "ai" "points" 20 none outcome =
      ((searchUnknownErrorMsg attributeErrorText,
        some (searchUnknownError "AttributeError" attributeErrorText)), [])) ∧
    chooseEndpoint "ai" "points" = .searchByDate ∧
    ("points" = "points" → PointsDesc (processHits "points" 20 15 [hitLow, hitHigh])) ∧
    ("points" = "date" → processHits "points" 20 15 [hitLow, hitHigh] =
      [hitLow, hitHigh].take (min 20 15)) :=
  C9_shipped_and_patched [] "ai" "points" 20 15 [hitLow, hitHigh] (by decide)
    (Or.inr rfl) rfl

-- ──────────────────────────────────────────────
-- Claims C7 and C8
-- ──────────────────────────────────────────────

/-- Claim C7, code evidence: `execute_tool` increments the job's read-item
counter BEFORE awaiting the content-fetch adapter, unconditionally
(app/agent.py line 149).  At a fresh job whose adapter call reports a
timeout incident, the counter ends at 1 — although the claim (and the
repository's own test `test_execute_tool_read_url_no_increment_on_error`)
requires it to stay 0 on adapter-reported failure.  The incident itself is
recorded as expected. -/
theorem C7_increment_on_adapter_failure :
    (execute_tool "read_url" {} sampleJob [] ("", none)
        ("[TIMEOUT] Could not read article",
          some c7ReadError)).2.1.progress.articles_read = 1 ∧
    (execute_tool "read_url" {} sampleJob [] ("", none)
        ("[TIMEOUT] Could not read article", some c7ReadError)).2.2 =
      [c7ReadError] := by
  decide

/-- Claim C8, code evidence: a control loop that exhausts its 15-turn
budget does raise the timeout-class `AgentTimeoutError`
(app/agent.py line 260), but `run_agent`'s except-chain does not match it
(`AgentTimeoutError` is not a builtin `TimeoutError` subclass), so the
final incident appended to the job carries the GENERIC code "agent_error",
and `process_briefing` — whose timeout-class handler copies the last
incident's code — surfaces "agent_error" as the job's terminal error code
instead of a timeout-class code. -/
theorem C8_turn_exhaustion_generic_code :
    agent_loop 15 (fun _ => .toolCalls) =
      .error (.agentTimeoutError "Agent did not produce output within 15 turns") ∧
    ((run_agent sampleJob [] 120 (agent_loop 15 (fun _ => .toolCalls))).1.errors.map
      (fun e => e.code)) = ["agent_error"] ∧
    ((process_briefing sampleJob (agent_loop 15 (fun _ => .toolCalls))
        (run_agent sampleJob [] 120 (agent_loop 15 (fun _ => .toolCalls))).1.errors
        (.ok []) []).error).map (fun e => e.code) = some "agent_error" := by
  refine ⟨rfl, rfl, rfl⟩

end MyPodcaster
